import Mathlib

/-!
Shallow embedding of the safe expression evaluator of `src/HW1/HW1.py`
(the function `safe_evaluate` and its inner recursive `_eval`), together
with theorems settling the specification claims about it.

Modelling conventions:
* Python runtime values that can flow through `_eval` are modelled by
  `PyVal`.  IEEE floats are modelled as exact rationals (no claim under
  consideration depends on rounding behaviour).
* Python exceptions are modelled as `Except` error values.  `_eval`
  raises classified `ValueError`s (unbound variable, division by zero,
  unsupported operator, unsupported syntax) but can also escape with
  uncontrolled exceptions (`KeyError` from the `allowed_operators`
  dictionary lookup in the `UnaryOp` branch, `TypeError` from applying
  an arithmetic operator to operands of unsuitable types); both kinds
  appear in `EvalErr`, told apart by `EvalErr.isClassified`.
* The host parser `ast.parse(expr, mode='eval')` is external library
  code; `safe_evaluate` is therefore parameterised by the parse
  function, and parse failures (Python `SyntaxError`) are its `.error`
  results.
* `ast.Constant` covers every literal kind Python has, so `Ast.constant`
  carries an arbitrary `PyVal`.  The `ast.Num` branch of `_eval`
  (line 67) is dead code on any Python version whose parser produces
  `ast.Constant` nodes, because the `ast.Constant` branch is tested
  first; it is therefore not represented.
* Every node variant outside the whitelist (calls, comparisons, boolean
  ops, subscripts, attribute access, ...) reaches the final `else`
  branch of `_eval`, which never inspects the node; they are modelled
  uniformly by `Ast.other` carrying the variant's name and its child
  expressions.
-/

deriving instance DecidableEq for Except

/-- Python runtime values reachable inside `_eval`: ints, floats
(modelled as exact rationals), bools, strings and `None`. -/
inductive PyVal where
  | int (n : ℤ)
  | float (q : ℚ)
  | bool (b : Bool)
  | str (s : String)
  | none
deriving DecidableEq, Repr

/-- Whether a value is a Python `float`. -/
def PyVal.isFloat : PyVal → Bool
  | .float _ => true
  | _ => false

/-- Whether a value is an `int` or a `float` (Python `bool` is excluded:
the spec's "numeric" means an actual number, not `True`/`False`). -/
def PyVal.isNumeric : PyVal → Bool
  | .int _ => true
  | .float _ => true
  | _ => false

/-- Integer view used by Python's arithmetic operators when no float is
involved: ints are themselves, bools behave as the ints 0/1; floats and
non-numbers have no integer view. -/
def PyVal.asIntNum : PyVal → Option ℤ
  | .int n => some n
  | .bool b => some (if b then 1 else 0)
  | _ => Option.none

/-- Numeric view used by Python's arithmetic operators when at least one
operand is a float (or for true division, which always produces a
float): ints, floats and bools (as 0/1) are numbers. -/
def PyVal.asFloatNum : PyVal → Option ℚ
  | .int n => some (n : ℚ)
  | .float q => some q
  | .bool b => some (if b then 1 else 0)
  | _ => Option.none

/-- The Python comparison `v == 0` (line 78 of the source): true for
`0`, `0.0` and `False`; strings and `None` never equal `0`. -/
def pyEqZero : PyVal → Bool
  | .int n => n = 0
  | .float q => q = 0
  | .bool b => b = false
  | _ => false

/-- Binary operator tags: the full set of `ast.operator` subclasses the
Python expression grammar can produce in a `BinOp` node. -/
inductive BinOpKind where
  | add | sub | mult | div | mod | pow | floorDiv
  | lshift | rshift | bitOr | bitXor | bitAnd | matMult
deriving DecidableEq, Repr

/-- Unary operator tags (`ast.unaryop` subclasses): `USub`, `UAdd`,
`Not` and `Invert` (the latter two named `unot`/`invert` here). -/
inductive UnaryOpKind where
  | usub | uadd | unot | invert
deriving DecidableEq, Repr

/-- Error outcomes of `safe_evaluate`.  The first five are the
classified `ValueError`s the source raises; `keyError` and `typeError`
are the uncontrolled exceptions that can escape `_eval`. -/
inductive EvalErr where
  | unboundVariable (name : String)
  | divisionByZero
  | unsupportedOperator (op : BinOpKind)
  | unsupportedSyntax
  | syntaxError
  | keyError (op : UnaryOpKind)
  | typeError
deriving DecidableEq, Repr

/-- Classified errors are the ones the source raises as `ValueError`
with a descriptive message; `KeyError`/`TypeError` escapes are not. -/
def EvalErr.isClassified : EvalErr → Bool
  | .keyError _ => false
  | .typeError => false
  | _ => true

/-- Syntax-tree nodes as produced by `ast.parse(expr, mode='eval')`.
The four whitelisted variants are explicit; every other variant (call,
comparison, boolean op, subscript, attribute access, collection
literal, ...) is `other`, carrying the variant name and the node's
child expressions, which `_eval` never inspects. -/
inductive Ast where
  | constant (v : PyVal)
  | name (id : String)
  | binOp (left : Ast) (op : BinOpKind) (right : Ast)
  | unaryOp (op : UnaryOpKind) (operand : Ast)
  | other (kind : String) (children : List Ast)

/-- The binding table: `vtable` is a Python dict from variable name
to float, modelled as an association list looked up by exact string
equality (Python dict lookup on string keys). -/
def lookupVar : List (String × ℚ) → String → Option ℚ
  | [], _ => Option.none
  | (k, v) :: rest, id => if k = id then some v else lookupVar rest id

/-- Membership test `op_type not in allowed_operators` for binary
operator tags: the dict's keys of binary kind are Add, Sub, Mult, Div
(its `USub`/`UAdd` keys can never equal a binary operator tag). -/
def allowedBin : BinOpKind → Bool
  | .add | .sub | .mult | .div => true
  | _ => false

/-- String repetition `s * n` (Python semantics: non-positive `n` gives
the empty string). -/
def strRepeat (s : String) (n : ℤ) : String :=
  String.join (List.replicate n.toNat s)

/-- The call `allowed_operators[op_type](left, right)` on line 83 for
the four whitelisted binary operators, with Python's dynamic-typing
semantics: two int-like operands (ints, bools-as-ints) combine in exact
integer arithmetic, a float operand makes the result a float
(float-contagion), true division always produces a float, `+`
concatenates two strings, `*` repeats a string by an integer, and every
other type combination raises `TypeError`.  Line 83 is only reached
with `op` in the whitelist and, for `div`, with a right operand that
does not equal `0`; the catch-all row for other tags is unreachable
there. -/
def applyBin (op : BinOpKind) (l r : PyVal) : Except EvalErr PyVal :=
  match op with
  | .add =>
    match l.asIntNum, r.asIntNum with
    | some a, some b => .ok (.int (a + b))
    | _, _ =>
      match l.asFloatNum, r.asFloatNum with
      | some a, some b => .ok (.float (a + b))
      | _, _ =>
        match l, r with
        | .str s, .str t => .ok (.str (s ++ t))
        | _, _ => .error .typeError
  | .sub =>
    match l.asIntNum, r.asIntNum with
    | some a, some b => .ok (.int (a - b))
    | _, _ =>
      match l.asFloatNum, r.asFloatNum with
      | some a, some b => .ok (.float (a - b))
      | _, _ => .error .typeError
  | .mult =>
    match l.asIntNum, r.asIntNum with
    | some a, some b => .ok (.int (a * b))
    | _, _ =>
      match l.asFloatNum, r.asFloatNum with
      | some a, some b => .ok (.float (a * b))
      | _, _ =>
        match l, r with
        | .str s, .int n => .ok (.str (strRepeat s n))
        | .str s, .bool b => .ok (.str (strRepeat s (if b then 1 else 0)))
        | .int n, .str s => .ok (.str (strRepeat s n))
        | .bool b, .str s => .ok (.str (strRepeat s (if b then 1 else 0)))
        | _, _ => .error .typeError
  | .div =>
    match l.asFloatNum, r.asFloatNum with
    | some a, some b => .ok (.float (a / b))
    | _, _ => .error .typeError
  | _ => .error .typeError

/-- The `UnaryOp` branch's `allowed_operators[type(node.op)](operand)`
(line 86): the dictionary lookup itself raises `KeyError` for `Not` and
`Invert` (no membership check guards this branch); `USub`/`UAdd` hit
`operator.neg`/`operator.pos`, which work on numbers (bools become
ints) and raise `TypeError` otherwise. -/
def applyUnary (op : UnaryOpKind) (v : PyVal) : Except EvalErr PyVal :=
  match op with
  | .usub =>
    match v with
    | .int n => .ok (.int (-n))
    | .float q => .ok (.float (-q))
    | .bool b => .ok (.int (if b then -1 else 0))
    | _ => .error .typeError
  | .uadd =>
    match v with
    | .int n => .ok (.int n)
    | .float q => .ok (.float q)
    | .bool b => .ok (.int (if b then 1 else 0))
    | _ => .error .typeError
  | .unot => .error (.keyError .unot)
  | .invert => .error (.keyError .invert)

/-- The recursive `_eval` of the source (lines 64-88): literals return
their value unchanged; names are looked up in `vtable` and coerced
to float, or fail `UnboundVariable`; `BinOp` evaluates left then right,
checks division by zero, then the operator whitelist, then applies the
operator; `UnaryOp` evaluates the operand and applies the operator
table entry; every other node variant fails `UnsupportedSyntax` without
being inspected. -/
def pyEval (vtable : List (String × ℚ)) : Ast → Except EvalErr PyVal
  | .constant v => .ok v
  | .name id =>
    match lookupVar vtable id with
    | some x => .ok (.float x)
    | Option.none => .error (.unboundVariable id)
  | .binOp l op r => do
    let left ← pyEval vtable l
    let right ← pyEval vtable r
    if op = .div && pyEqZero right then .error .divisionByZero
    else if !allowedBin op then .error (.unsupportedOperator op)
    else applyBin op left right
  | .unaryOp op operand => do
    let v ← pyEval vtable operand
    applyUnary op v
  | .other _ _ => .error .unsupportedSyntax

/-- The outer `safe_evaluate` (lines 51-94): default the bindings to
the empty table when `None` was passed, parse the source text with the
host parser, turn a parse failure (`SyntaxError`) into the classified
syntax-error result, and otherwise run `_eval` on the tree. -/
def safe_evaluate (parse : String → Except String Ast) (expr : String)
    (vtable : Option (List (String × ℚ))) : Except EvalErr PyVal :=
  let vars := vtable.getD []
  match parse expr with
  | .error _ => .error .syntaxError
  | .ok tree => pyEval vars tree

/-- Count of constants in a tree that are non-numeric: `numericConsts e`
holds when every `ast.Constant` occurring at an evaluated position of
`e` carries an int or a float.  Children of non-whitelisted nodes are
never evaluated and are not constrained. -/
def numericConsts : Ast → Bool
  | .constant v => v.isNumeric
  | .name _ => true
  | .binOp l _ r => numericConsts l && numericConsts r
  | .unaryOp _ e => numericConsts e
  | .other _ _ => true

/-- State-threaded rendering of `_eval`: the Python closure reads the
one `vtable` dict through every recursive call, so the embedding passes
the table in and out of each call explicitly; a mutation performed
anywhere during the walk would surface as an output table differing
from the input one. -/
def pyEvalS : Ast → List (String × ℚ) → Except EvalErr PyVal × List (String × ℚ)
  | .constant v, m => (.ok v, m)
  | .name id, m =>
    match lookupVar m id with
    | some x => (.ok (.float x), m)
    | Option.none => (.error (.unboundVariable id), m)
  | .binOp l op r, m =>
    match pyEvalS l m with
    | (.error e, m1) => (.error e, m1)
    | (.ok left, m1) =>
      match pyEvalS r m1 with
      | (.error e, m2) => (.error e, m2)
      | (.ok right, m2) =>
        (if op = .div && pyEqZero right then .error .divisionByZero
         else if !allowedBin op then .error (.unsupportedOperator op)
         else applyBin op left right, m2)
  | .unaryOp op operand, m =>
    match pyEvalS operand m with
    | (.error e, m1) => (.error e, m1)
    | (.ok v, m1) => (applyUnary op v, m1)
  | .other _ _, m => (.error .unsupportedSyntax, m)

/-- Bind on `Except` applied to a success: the continuation runs. -/
theorem exceptBind_ok {α β : Type} (a : α) (f : α → Except EvalErr β) :
    (Except.ok a >>= f) = f a := rfl

/-- Bind on `Except` applied to a failure: the failure propagates and
the continuation never runs. -/
theorem exceptBind_err {α β : Type} (e : EvalErr) (f : α → Except EvalErr β) :
    ((Except.error e : Except EvalErr α) >>= f) = Except.error e := rfl

example : pyEval [] (.binOp (.constant (.int 2)) .add (.constant (.int 3)))
    = .ok (.int 5) := by decide
example : pyEval [] (.binOp (.constant (.int 1)) .div (.constant (.int 0)))
    = .error .divisionByZero := by decide
example : pyEval [] (.unaryOp .invert (.constant (.int 1)))
    = .error (.keyError .invert) := by decide
example : pyEval [("x", 2)] (.name "x") = .ok (.float 2) := by decide
example : pyEval [] (.binOp (.constant (.float (1/2))) .add (.constant (.int 1)))
    = .ok (.float (1/2 + 1)) := rfl

/-- C1: evaluating a node whose variant is outside the whitelist
{Literal, VariableRef, BinaryOp, UnaryOp} always yields the classified
`UnsupportedSyntax` error, whatever the node's children are — the
evaluator never descends into them and never crashes or returns an
undefined value. -/
theorem unsupported_syntax_always_rejected (vtable : List (String × ℚ))
    (kind : String) (children : List Ast) :
    pyEval vtable (Ast.other kind children) = .error .unsupportedSyntax ∧
    EvalErr.unsupportedSyntax.isClassified = true :=
  ⟨rfl, rfl⟩

/-- C1 witness: a call node (the variant `ast.Call`) whose child would
itself evaluate to an unbound-variable failure is rejected with
`UnsupportedSyntax` without the child being looked at. -/
theorem unsupported_syntax_always_rejected_witness :
    pyEval [] (Ast.other "Call" [Ast.name "x"]) = .error .unsupportedSyntax ∧
    EvalErr.unsupportedSyntax.isClassified = true :=
  unsupported_syntax_always_rejected [] "Call" [Ast.name "x"]

/-- C2: when both operands of a division node evaluate successfully and
the right operand equals exactly zero, the node evaluates to the
classified `DivisionByZero` error — for every left value, so the check
precedes any invocation of the division operator and the result is
never an infinity, NaN or trap. -/
theorem div_right_zero_classified (vtable : List (String × ℚ)) (l r : Ast)
    (lv rv : PyVal) (hl : pyEval vtable l = .ok lv)
    (hr : pyEval vtable r = .ok rv) (hz : pyEqZero rv = true) :
    pyEval vtable (Ast.binOp l BinOpKind.div r) = .error .divisionByZero ∧
    EvalErr.divisionByZero.isClassified = true := by
  refine ⟨?_, rfl⟩
  simp only [pyEval, hl, hr, exceptBind_ok, hz, Bool.and_true]
  simp

/-- C2 witness: the division `1 / 0` fails with the classified
division-by-zero error. -/
theorem div_right_zero_classified_witness :
    pyEval [] (Ast.binOp (Ast.constant (PyVal.int 1)) BinOpKind.div
      (Ast.constant (PyVal.int 0))) = .error .divisionByZero ∧
    EvalErr.divisionByZero.isClassified = true :=
  div_right_zero_classified [] (Ast.constant (PyVal.int 1))
    (Ast.constant (PyVal.int 0)) (PyVal.int 1) (PyVal.int 0) rfl rfl rfl

/-- C3 (code bug): the `UnaryOp` branch applies
`allowed_operators[type(node.op)]` without a membership check, so the
unary operators outside the whitelist (`~x`, `not x`) escape with an
uncontrolled `KeyError` instead of the classified `UnsupportedOperator`
error: evaluating `~1` produces the unclassified `keyError`. -/
theorem unary_nonwhitelisted_keyerror :
    pyEval [] (Ast.unaryOp UnaryOpKind.invert (Ast.constant (PyVal.int 1)))
      = .error (.keyError .invert) ∧
    (EvalErr.keyError UnaryOpKind.invert).isClassified = false ∧
    pyEval [] (Ast.unaryOp UnaryOpKind.unot (Ast.constant (PyVal.int 1)))
      = .error (.keyError .unot) := by
  refine ⟨rfl, rfl, rfl⟩

/-- C4 counterexample: evaluating the lexically integral literal `2`
yields the integer `2`, which is not a float and differs from the float
`2.0` the claim promises. -/
theorem literal_int_not_float_counterexample :
    pyEval [] (Ast.constant (PyVal.int 2)) = .ok (PyVal.int 2) ∧
    (PyVal.int 2).isFloat = false ∧
    (Except.ok (PyVal.int 2) : Except EvalErr PyVal) ≠ .ok (PyVal.float 2) := by
  refine ⟨rfl, rfl, ?_⟩
  intro h
  simp at h

/-- C4 amended: a literal node evaluates to its value completely
unchanged — no float coercion happens, so an integral literal stays an
integer. -/
theorem literal_returned_unchanged (vtable : List (String × ℚ)) (v : PyVal) :
    pyEval vtable (Ast.constant v) = .ok v :=
  rfl

/-- C6: a variable reference resolves by exact string lookup in the
flat binding table: a bound name evaluates to its value coerced to
float, and an unbound name fails with the classified `UnboundVariable`
error carrying that name. -/
theorem variable_ref_lookup (vtable : List (String × ℚ)) (id : String) :
    (∀ x, lookupVar vtable id = some x →
      pyEval vtable (Ast.name id) = .ok (.float x)) ∧
    (lookupVar vtable id = Option.none →
      pyEval vtable (Ast.name id) = .error (.unboundVariable id) ∧
      (EvalErr.unboundVariable id).isClassified = true) := by
  constructor
  · intro x h
    simp [pyEval, h]
  · intro h
    simp [pyEval, h, EvalErr.isClassified]

/-- C6 witness: with the binding table {x ↦ 2}, the reference `x`
evaluates to the float 2.0 and the reference `y` fails with the
unbound-variable error naming `y`. -/
theorem variable_ref_lookup_witness :
    pyEval [("x", 2)] (Ast.name "x") = .ok (.float 2) ∧
    pyEval [("x", 2)] (Ast.name "y") = .error (.unboundVariable "y") :=
  ⟨(variable_ref_lookup [("x", 2)] "x").1 2 (by rfl),
   ((variable_ref_lookup [("x", 2)] "y").2 (by rfl)).1⟩

/-- C7: in a binary node the left operand is evaluated first and its
failure short-circuits: the node's result is the left failure itself,
for every operator and every right operand. -/
theorem binop_left_failure_short_circuits (vtable : List (String × ℚ))
    (l r : Ast) (op : BinOpKind) (e : EvalErr)
    (h : pyEval vtable l = .error e) :
    pyEval vtable (Ast.binOp l op r) = .error e := by
  simp only [pyEval, h, exceptBind_err]

/-- C7 witness: in `x / y` with an empty binding table both operands
would fail, and the failure observed is the left one (`x` unbound), not
the right one. -/
theorem binop_left_failure_short_circuits_witness :
    pyEval [] (Ast.binOp (Ast.name "x") BinOpKind.div (Ast.name "y"))
      = .error (.unboundVariable "x") ∧
    (EvalErr.unboundVariable "x") ≠ (EvalErr.unboundVariable "y") :=
  ⟨binop_left_failure_short_circuits [] (Ast.name "x") (Ast.name "y")
    BinOpKind.div (.unboundVariable "x") rfl, by decide⟩

/-- C8: whenever the host parser rejects the source text (empty input,
unbalanced delimiters, invalid tokens, statement-level or
multi-statement input all raise `SyntaxError` in `ast.parse` with
`mode='eval'`), the combined entry point returns the classified
syntax-error result — no tree is evaluated and no partial result is
produced. -/
theorem parse_failure_classified_syntax_error
    (parse : String → Except String Ast) (expr : String)
    (vtable : Option (List (String × ℚ))) (msg : String)
    (h : parse expr = .error msg) :
    safe_evaluate parse expr vtable = .error .syntaxError ∧
    EvalErr.syntaxError.isClassified = true := by
  constructor
  · simp [safe_evaluate, h]
  · rfl

/-- C8 witness: a parser rejecting the malformed source `2+` makes the
combined entry point return the classified syntax error. -/
theorem parse_failure_classified_syntax_error_witness :
    safe_evaluate (fun _ => .error "invalid syntax") "2+" Option.none
      = .error .syntaxError ∧
    EvalErr.syntaxError.isClassified = true :=
  parse_failure_classified_syntax_error (fun _ => .error "invalid syntax")
    "2+" Option.none "invalid syntax" rfl

/-- C10: omitting the bindings argument (passing `None`) behaves
exactly like passing the empty binding table, for every parser and
every source text. -/
theorem none_bindings_equals_empty (parse : String → Except String Ast)
    (expr : String) :
    safe_evaluate parse expr Option.none = safe_evaluate parse expr (some []) :=
  rfl

/-- Applying a whitelisted binary operator to two numeric operands can
only succeed with a numeric result (the string rows of `applyBin` need
a string operand). -/
theorem applyBin_numeric_ok (op : BinOpKind) (l r v : PyVal)
    (hl : l.isNumeric = true) (hr : r.isNumeric = true)
    (h : applyBin op l r = .ok v) : v.isNumeric = true := by
  cases l <;> simp [PyVal.isNumeric] at hl <;>
  cases r <;> simp [PyVal.isNumeric] at hr <;>
  cases op <;>
  simp only [applyBin, PyVal.asIntNum, PyVal.asFloatNum] at h <;>
  first
    | (injection h with h; rw [← h]; rfl)
    | exact Except.noConfusion h

/-- Applying a unary operator to a numeric operand can only succeed
with a numeric result. -/
theorem applyUnary_numeric_ok (op : UnaryOpKind) (x v : PyVal)
    (hx : x.isNumeric = true) (h : applyUnary op x = .ok v) :
    v.isNumeric = true := by
  cases x <;> simp [PyVal.isNumeric] at hx <;>
  cases op <;>
  simp only [applyUnary] at h <;>
  first
    | (injection h with h; rw [← h]; rfl)
    | exact Except.noConfusion h

/-- When every constant at an evaluated position of the tree is
numeric, a successful evaluation yields a numeric value: literals are
numeric by hypothesis, variable lookups produce floats, and the
operator applications preserve numericity. -/
theorem pyEval_numeric_ok : ∀ (e : Ast) (m : List (String × ℚ)) (v : PyVal),
    numericConsts e = true → pyEval m e = .ok v → v.isNumeric = true
  | .constant w, _, v, hc, he => by
    simp only [pyEval, Except.ok.injEq] at he
    subst he
    simpa [numericConsts] using hc
  | .name id, m, v, _, he => by
    simp only [pyEval] at he
    cases h : lookupVar m id with
    | none =>
      rw [h] at he
      simp at he
    | some x =>
      rw [h] at he
      simp only [Except.ok.injEq] at he
      subst he
      rfl
  | .binOp l op r, m, v, hc, he => by
    simp only [numericConsts, Bool.and_eq_true] at hc
    simp only [pyEval] at he
    cases hl : pyEval m l with
    | error e1 =>
      rw [hl, exceptBind_err] at he
      exact absurd he (by simp)
    | ok lv =>
      rw [hl, exceptBind_ok] at he
      cases hr : pyEval m r with
      | error e2 =>
        rw [hr, exceptBind_err] at he
        exact absurd he (by simp)
      | ok rv =>
        rw [hr, exceptBind_ok] at he
        have hlv := pyEval_numeric_ok l m lv hc.1 hl
        have hrv := pyEval_numeric_ok r m rv hc.2 hr
        split at he
        · exact absurd he (by simp)
        · split at he
          · exact absurd he (by simp)
          · exact applyBin_numeric_ok op lv rv v hlv hrv he
  | .unaryOp op operand, m, v, hc, he => by
    simp only [numericConsts] at hc
    simp only [pyEval] at he
    cases ho : pyEval m operand with
    | error e1 =>
      rw [ho, exceptBind_err] at he
      exact absurd he (by simp)
    | ok xv =>
      rw [ho, exceptBind_ok] at he
      exact applyUnary_numeric_ok op xv v (pyEval_numeric_ok operand m xv hc ho) he
  | .other _ _, _, _, _, he => by
    simp [pyEval] at he

/-- C5 amended: evaluation never produces a partial result — it returns
one value or one error — and whenever every literal in the expression
is numeric, a successful evaluation returns a numeric value; a bare
non-numeric literal (string, boolean, `None`), however, is returned
as-is, so the unconditional claim fails (see the counterexample). -/
theorem eval_numeric_when_literals_numeric (e : Ast)
    (m : List (String × ℚ)) (v : PyVal)
    (hc : numericConsts e = true) (he : pyEval m e = .ok v) :
    v.isNumeric = true :=
  pyEval_numeric_ok e m v hc he

/-- C5 witness: `2 + 3` has only numeric literals and evaluates to the
numeric value 5. -/
theorem eval_numeric_when_literals_numeric_witness :
    (PyVal.int 5).isNumeric = true :=
  eval_numeric_when_literals_numeric
    (Ast.binOp (Ast.constant (PyVal.int 2)) BinOpKind.add
      (Ast.constant (PyVal.int 3))) [] (PyVal.int 5) rfl rfl

/-- C5 counterexample: the string literal `'abc'` evaluates
successfully to the string value `'abc'`, which is not numeric — the
evaluator can return a non-numeric value. -/
theorem non_numeric_result_counterexample :
    pyEval [] (Ast.constant (PyVal.str "abc")) = .ok (PyVal.str "abc") ∧
    (PyVal.str "abc").isNumeric = false :=
  ⟨rfl, rfl⟩

/-- The tree walk hands the binding table back unchanged: no case of
`_eval` writes to `variables`, so the output table of the
state-threaded evaluator is its input table. -/
theorem pyEvalS_table_id : ∀ (e : Ast) (m : List (String × ℚ)),
    (pyEvalS e m).2 = m
  | .constant _, _ => rfl
  | .name id, m => by
    simp only [pyEvalS]
    cases lookupVar m id <;> rfl
  | .binOp l op r, m => by
    have hl := pyEvalS_table_id l m
    rcases h1 : pyEvalS l m with ⟨res1, m1⟩
    rw [h1] at hl
    have hm : m1 = m := hl
    subst hm
    cases res1 with
    | error e1 => simp [pyEvalS, h1]
    | ok lv =>
      have hr := pyEvalS_table_id r m1
      rcases h2 : pyEvalS r m1 with ⟨res2, m2⟩
      rw [h2] at hr
      cases res2 with
      | error e2 => simp [pyEvalS, h1, h2, hr]
      | ok rv => simp [pyEvalS, h1, h2, hr]
  | .unaryOp op operand, m => by
    have ho := pyEvalS_table_id operand m
    rcases h1 : pyEvalS operand m with ⟨res1, m1⟩
    rw [h1] at ho
    have hm : m1 = m := ho
    subst hm
    cases res1 with
    | error e1 => simp [pyEvalS, h1]
    | ok xv => simp [pyEvalS, h1]
  | .other _ _, _ => rfl

/-- The state-threaded evaluator computes the same answer as the
`Except`-valued one: the two renderings of `_eval` agree. -/
theorem pyEvalS_pyEval : ∀ (e : Ast) (m : List (String × ℚ)),
    (pyEvalS e m).1 = pyEval m e
  | .constant _, _ => rfl
  | .name id, m => by
    simp only [pyEvalS, pyEval]
    cases lookupVar m id <;> rfl
  | .binOp l op r, m => by
    have hl := (pyEvalS_pyEval l m).symm
    have hlm := pyEvalS_table_id l m
    rcases h1 : pyEvalS l m with ⟨res1, m1⟩
    rw [h1] at hl hlm
    have hm : m1 = m := hlm
    subst hm
    cases res1 with
    | error e1 => simp [pyEvalS, pyEval, h1, hl, exceptBind_err]
    | ok lv =>
      have hr := (pyEvalS_pyEval r m1).symm
      rcases h2 : pyEvalS r m1 with ⟨res2, m2⟩
      rw [h2] at hr
      cases res2 with
      | error e2 =>
        simp [pyEvalS, pyEval, h1, h2, hl, hr, exceptBind_ok, exceptBind_err]
      | ok rv =>
        simp [pyEvalS, pyEval, h1, h2, hl, hr, exceptBind_ok]
  | .unaryOp op operand, m => by
    have ho := (pyEvalS_pyEval operand m).symm
    rcases h1 : pyEvalS operand m with ⟨res1, m1⟩
    rw [h1] at ho
    cases res1 with
    | error e1 => simp [pyEvalS, pyEval, h1, ho, exceptBind_err]
    | ok xv => simp [pyEvalS, pyEval, h1, ho, exceptBind_ok]
  | .other _ _, _ => rfl

/-- C9: evaluation is pure and idempotent — the walk returns the
binding table exactly as it received it, re-evaluating the same tree
with the table left by the first call gives the same outcome as the
first call, and the state-threaded result agrees with the
`Except`-valued evaluator. -/
theorem eval_pure_and_idempotent (e : Ast) (m : List (String × ℚ)) :
    (pyEvalS e m).2 = m ∧
    pyEvalS e ((pyEvalS e m).2) = pyEvalS e m ∧
    (pyEvalS e m).1 = pyEval m e := by
  refine ⟨pyEvalS_table_id e m, ?_, pyEvalS_pyEval e m⟩
  rw [pyEvalS_table_id e m]
